import Mathlib

/-!
Verification of the big-trip itinerary UI (board presenter and filter view)
against its natural-language specification.

The JavaScript sources embedded here are:
* the filter view (createFilterItemTemplate and FilterView);
* src/presenter/board-presenter.js (BoardPresenter).

Pure template functions become Lean functions on strings; the stateful
presenter becomes explicit state passing over a BoardState record, with a
JavaScript exception (a TypeError from dereferencing null or undefined)
modelled as the error branch of Except, carrying the state at the moment
of the throw.  Files of the repository that are imported by the presenter
but not present in the excerpt (const.js, utils.js, filter.js, the models
and the framework renderer) are modelled from the specification where
needed; each such definition says so in its doc comment.
-/

/-! ## Filter view (createFilterItemTemplate) -/

/-- A filter item as passed to the filter view: a filter type name and the
number of points matching that filter. -/
structure FilterItem where
  type : String
  count : Nat
deriving Repr, DecidableEq

/-- The isChecked binding of createFilterItemTemplate:
type === currentFilterType ? 'checked' : ''. -/
def isCheckedAttr (type currentFilterType : String) : String :=
  if type == currentFilterType then "checked" else ""

/-- The isDisabled binding of createFilterItemTemplate:
count === 0 ? 'disabled' : ''. -/
def isDisabledAttr (count : Nat) : String :=
  if count == 0 then "disabled" else ""

/-- createFilterItemTemplate from the filter view: the template literal with
type, isChecked and isDisabled interpolated. -/
def createFilterItemTemplate (f : FilterItem) (currentFilterType : String) : String :=
  "<div class=\"trip-filters__filter\">\n      <input id=\"filter-" ++ f.type ++
  "\" class=\"trip-filters__filter-input  visually-hidden\" type=\"radio\" name=\"trip-filter\" value=\"" ++ f.type ++
  "\" " ++ isCheckedAttr f.type currentFilterType ++ " " ++ isDisabledAttr f.count ++
  ">\n      <label class=\"trip-filters__filter-label\" for=\"filter-" ++ f.type ++
  "\">" ++ f.type ++ "</label>\n    </div>"

/-! Adjacent-pair machinery: to show that the template does NOT contain the
substring "disabled" when count is nonzero, we track the pairs of adjacent
characters.  The word "disabled" contains the pair ('b', 'l'), while in the
template without the disabled token every 'b' (all inside "label") is
followed by 'e', so the pair ('b', 'l') never occurs. -/

/-- The list of adjacent pairs of elements of a list. -/
def adjPairs {α : Type} : List α → List (α × α)
  | [] => []
  | [_] => []
  | a :: b :: rest => (a, b) :: adjPairs (b :: rest)

theorem adjPairs_cons_cons {α : Type} (a b : α) (l : List α) :
    adjPairs (a :: b :: l) = (a, b) :: adjPairs (b :: l) := rfl

/-- The first component of an adjacent pair is a member of the list. -/
theorem fst_mem_of_mem_adjPairs {α : Type} {x y : α} :
    ∀ {l : List α}, (x, y) ∈ adjPairs l → x ∈ l
  | [], h => by simp [adjPairs] at h
  | [_], h => by simp [adjPairs] at h
  | a :: b :: rest, h => by
      rw [adjPairs_cons_cons] at h
      rcases List.mem_cons.mp h with h | h
      · rw [Prod.mk.injEq] at h
        exact h.1 ▸ List.mem_cons_self a _
      · exact List.mem_cons_of_mem a (fst_mem_of_mem_adjPairs h)

/-- An adjacent pair of a concatenation is an adjacent pair of one of the two
parts, or straddles the boundary (last of the first part, head of the
second). -/
theorem mem_adjPairs_append {α : Type} {x y : α} :
    ∀ {l m : List α}, (x, y) ∈ adjPairs (l ++ m) →
      (x, y) ∈ adjPairs l ∨ (l.getLast? = some x ∧ m.head? = some y) ∨
        (x, y) ∈ adjPairs m
  | [], _, h => Or.inr (Or.inr h)
  | [a], m, h => by
      cases m with
      | nil => simp [adjPairs] at h
      | cons b m' =>
        rw [List.singleton_append, adjPairs_cons_cons] at h
        rcases List.mem_cons.mp h with h | h
        · rw [Prod.mk.injEq] at h
          exact Or.inr (Or.inl ⟨by simp [h.1], by simp [h.2]⟩)
        · exact Or.inr (Or.inr h)
  | a :: b :: rest, m, h => by
      rw [List.cons_append, List.cons_append, adjPairs_cons_cons] at h
      rcases List.mem_cons.mp h with h | h
      · rw [Prod.mk.injEq] at h
        refine Or.inl ?_
        rw [adjPairs_cons_cons]
        exact List.mem_cons.mpr (Or.inl (by simp [h.1, h.2]))
      · rcases mem_adjPairs_append (l := b :: rest) (m := m) h with h' | h' | h'
        · refine Or.inl ?_
          rw [adjPairs_cons_cons]
          exact List.mem_cons_of_mem _ h'
        · exact Or.inr (Or.inl ⟨by rw [List.getLast?_cons_cons]; exact h'.1, h'.2⟩)
        · exact Or.inr (Or.inr h')

/-- Closure of pair-absence under concatenation. -/
theorem not_mem_adjPairs_append {α : Type} {x y : α} {l m : List α}
    (hl : (x, y) ∉ adjPairs l) (hm : (x, y) ∉ adjPairs m)
    (hb : ¬(l.getLast? = some x ∧ m.head? = some y)) :
    (x, y) ∉ adjPairs (l ++ m) := by
  intro h
  rcases mem_adjPairs_append h with h | h | h
  · exact hl h
  · exact hb h
  · exact hm h

/-- Adjacent pairs survive prepending an element. -/
theorem mem_adjPairs_cons {α : Type} {x y a : α} {l : List α}
    (h : (x, y) ∈ adjPairs l) : (x, y) ∈ adjPairs (a :: l) := by
  cases l with
  | nil => simp [adjPairs] at h
  | cons b rest =>
    rw [adjPairs_cons_cons]
    exact List.mem_cons_of_mem _ h

/-- Adjacent pairs of the right part survive concatenation. -/
theorem mem_adjPairs_append_right {α : Type} {x y : α} (l : List α) {m : List α}
    (h : (x, y) ∈ adjPairs m) : (x, y) ∈ adjPairs (l ++ m) := by
  induction l with
  | nil => exact h
  | cons a l' ih =>
    rw [List.cons_append]
    exact mem_adjPairs_cons ih

/-- Adjacent pairs of the left part survive concatenation. -/
theorem mem_adjPairs_append_left {α : Type} {x y : α} :
    ∀ {l : List α} (m : List α), (x, y) ∈ adjPairs l → (x, y) ∈ adjPairs (l ++ m)
  | [], _, h => by simp [adjPairs] at h
  | [_], _, h => by simp [adjPairs] at h
  | a :: b :: rest, m, h => by
      rw [List.cons_append, List.cons_append, adjPairs_cons_cons]
      rw [adjPairs_cons_cons] at h
      rcases List.mem_cons.mp h with h | h
      · exact List.mem_cons.mpr (Or.inl h)
      · exact List.mem_cons_of_mem _ (mem_adjPairs_append_left m h)

/-- Adjacent pairs are preserved by list-infix containment. -/
theorem mem_adjPairs_of_infix {α : Type} {x y : α} {p l : List α}
    (hinf : p <:+: l) (h : (x, y) ∈ adjPairs p) : (x, y) ∈ adjPairs l := by
  obtain ⟨s, t, ht⟩ := hinf
  subst ht
  rw [List.append_assoc]
  exact mem_adjPairs_append_right s (mem_adjPairs_append_left t h)

/-! ## Constants (const.js, imported by the presenter) -/

/-- Modelled from the spec: const.js is not in the excerpt; the presenter
references exactly SortType.DAY, SortType.PRICE and SortType.TIME. -/
inductive SortType
  | DAY
  | PRICE
  | TIME
deriving Repr, DecidableEq

/-- Modelled from the spec: const.js is not in the excerpt; the presenter
references exactly UpdateType.PATCH, MINOR, MAJOR and INIT. -/
inductive UpdateType
  | PATCH
  | MINOR
  | MAJOR
  | INIT
deriving Repr, DecidableEq

/-- Modelled from the spec: const.js is not in the excerpt; the presenter
references exactly UserAction.UPDATE_POINT, ADD_POINT and DELETE_POINT. -/
inductive UserAction
  | UPDATE_POINT
  | ADD_POINT
  | DELETE_POINT
deriving Repr, DecidableEq

/-- Modelled from the spec: const.js is not in the excerpt; the presenter
references FilterType.EVERYTHING, and the spec describes UI-level filter
predicates over the point collection. -/
inductive FilterType
  | EVERYTHING
  | FUTURE
  | PRESENT
  | PAST
deriving Repr, DecidableEq

/-- Modelled from the spec: a Point is a plain record (id, date range,
price, type, destination id, offer ids); dates are integer timestamps. -/
structure Point where
  id : Nat
  dateFrom : Int
  dateTo : Int
  basePrice : Int
  ptype : String
  destination : Nat
  offers : List Nat
deriving Repr, DecidableEq

/-- Modelled from the spec: utils.js (the comparators sortDay, sortPrice,
sortTime) and filter.js (the filter predicates) are not in the excerpt; the
spec describes them as UI-level predicates and comparators over the point
collection, so the development is parameterised over them. -/
structure Env where
  filterPred : FilterType → Point → Bool
  sortDay : Point → Point → Int
  sortPrice : Point → Point → Int
  sortTime : Point → Point → Int

/-- JavaScript Array.prototype.sort with a numeric comparator: a stable
comparator-consistent sort (embedded as stable insertion sort) placing a
before b when the comparator is nonpositive. -/
def jsSort (cmp : Point → Point → Int) (l : List Point) : List Point :=
  l.insertionSort (fun a b => cmp a b ≤ 0)

/-- Modelled from the spec: filter.js maps each filter type to a predicate
and applies it to the point collection, yielding a fresh array. -/
def filterPoints (env : Env) (t : FilterType) (points : List Point) : List Point :=
  points.filter (env.filterPred t)

/-- The observable models the presenter reads: the points model's point
collection, the filter model's current filter, the offer model's
offersByType array and the destination model's destinations array (offers
and destinations carried as identifier lists; only membership and count
matter to the presenter). -/
structure Models where
  points : List Point
  filter : FilterType
  offersByType : List Nat
  destinations : List Nat
deriving Repr, DecidableEq

/-- The mutable state of a BoardPresenter, together with the rendered-or-not
state of each of its components.  pointPresenters is the JavaScript Map in
insertion order, each entry carrying the point its presenter was last
initialised with; newPointPresenterCreated records whether the INIT handler
has assigned the new-point presenter (null until then). -/
structure BoardState where
  models : Models
  pointPresenters : List (Nat × Point)
  newPointPresenterCreated : Bool
  currentSortType : SortType
  filterType : FilterType
  isLoading : Bool
  loadingRendered : Bool
  errorRendered : Bool
  noPointsRendered : Bool
  sortRendered : Bool
  eventListRendered : Bool
deriving Repr, DecidableEq

/-- JavaScript Map.prototype.get on the insertion-ordered entry list
(undefined becomes none). -/
def mapGet (m : List (Nat × Point)) (k : Nat) : Option Point :=
  (m.find? (fun e => e.1 == k)).map Prod.snd

/-- JavaScript Map.prototype.set: updates the entry in place when the key
is present, keeping insertion order, and appends otherwise. -/
def mapSet (m : List (Nat × Point)) (k : Nat) (v : Point) : List (Nat × Point) :=
  if m.any (fun e => e.1 == k) then
    m.map (fun e => if e.1 == k then (k, v) else e)
  else m ++ [(k, v)]

/-- Modelled from the spec: the models share an Observable base;
addObserver appends the handler to the model's observer list. -/
def addObserver (observers : List Nat) (h : Nat) : List Nat :=
  observers ++ [h]

/-- The observer lists of the four models the presenter is constructed
with (observers identified by handler ids). -/
structure ObserverRegistry where
  pointsObservers : List Nat
  filterObservers : List Nat
  offerObservers : List Nat
  destinationObservers : List Nat
deriving Repr, DecidableEq

/-- The field initialisers of BoardPresenter (lines 14-34): empty presenter
map, no new-point presenter, sort DAY, filter EVERYTHING, loading in
progress, nothing rendered yet. -/
def initState (m : Models) : BoardState :=
  { models := m
    pointPresenters := []
    newPointPresenterCreated := false
    currentSortType := .DAY
    filterType := .EVERYTHING
    isLoading := true
    loadingRendered := false
    errorRendered := false
    noPointsRendered := false
    sortRendered := false
    eventListRendered := false }

/-- The BoardPresenter constructor (lines 36-50): stores the models and
registers handleModelEvent (identified by handler id h) as an observer on
the points, filter, offer and destination models. -/
def constructBoardPresenter (m : Models) (regs : ObserverRegistry) (h : Nat) :
    BoardState × ObserverRegistry :=
  (initState m,
   { pointsObservers := addObserver regs.pointsObservers h
     filterObservers := addObserver regs.filterObservers h
     offerObservers := addObserver regs.offerObservers h
     destinationObservers := addObserver regs.destinationObservers h })

/-- The points getter (lines 52-66): stores the filter model's current
filter into filterType, filters the points model's points with that
filter's predicate, and sorts the filtered array with the comparator
selected by the current sort type. -/
def getPoints (env : Env) (s : BoardState) : BoardState × List Point :=
  let s1 := { s with filterType := s.models.filter }
  let filteredPoints := filterPoints env s1.models.filter s1.models.points
  match s1.currentSortType with
  | .DAY => (s1, jsSort env.sortDay filteredPoints)
  | .PRICE => (s1, jsSort env.sortPrice filteredPoints)
  | .TIME => (s1, jsSort env.sortTime filteredPoints)

/-- renderLoading (lines 176-178). -/
def renderLoading (s : BoardState) : BoardState :=
  { s with loadingRendered := true }

/-- renderError (lines 180-182). -/
def renderError (s : BoardState) : BoardState :=
  { s with errorRendered := true }

/-- renderNoPoints (lines 184-190). -/
def renderNoPoints (s : BoardState) : BoardState :=
  { s with noPointsRendered := true }

/-- renderSort (lines 168-174). -/
def renderSort (s : BoardState) : BoardState :=
  { s with sortRendered := true }

/-- renderPoint (lines 144-156): creates a point presenter, initialises it
with the point, and stores it in the map under the point's id. -/
def renderPoint (p : Point) (s : BoardState) : BoardState :=
  { s with pointPresenters := mapSet s.pointPresenters p.id p }

/-- renderPointList (lines 192-195): renders the event list container and
one point presenter per point. -/
def renderPointList (points : List Point) (s : BoardState) : BoardState :=
  points.foldl (fun st p => renderPoint p st) { s with eventListRendered := true }

/-- renderBoard (lines 197-213): reads the points getter; renders the
loading view while loading, the no-points view when no point is visible,
and otherwise the sort control followed by the point list (reading the
getter a second time, as the source does). -/
def renderBoard (env : Env) (s : BoardState) : BoardState :=
  let r := getPoints env s
  let pointCount := r.2.length
  if r.1.isLoading then renderLoading r.1
  else if pointCount == 0 then renderNoPoints r.1
  else
    let s1 := renderSort r.1
    let r2 := getPoints env s1
    renderPointList r2.2 r2.1

/-- clearBoard (lines 125-142): destroys every child point presenter and
empties the map, removes the sort, no-points and loading components,
optionally resets the sort type to DAY, and finally calls destroy() on the
new-point presenter — a TypeError (the Except error branch, carrying the
state at the moment of the throw) when that presenter was never created. -/
def clearBoard (resetSortType : Bool) (s : BoardState) : Except BoardState BoardState :=
  let s1 := { s with pointPresenters := []
                     sortRendered := false
                     noPointsRendered := false
                     loadingRendered := false }
  let s2 := if resetSortType then { s1 with currentSortType := .DAY } else s1
  if s2.newPointPresenterCreated then .ok s2 else .error s2

/-- handleModelEvent (lines 92-123): PATCH re-initialises the presenter
registered under the updated point's id (a TypeError when none is
registered, since Map.get returns undefined); MINOR clears and re-renders;
MAJOR clears with sort reset and re-renders; INIT ends loading, removes the
loading view, renders the static error view when the offer or destination
data is empty (failed to load), and otherwise creates the new-point
presenter and renders the board. -/
def handleModelEvent (env : Env) (updateType : UpdateType) (data : Point)
    (s : BoardState) : Except BoardState BoardState :=
  match updateType with
  | .PATCH =>
      match mapGet s.pointPresenters data.id with
      | none => .error s
      | some _ => .ok { s with pointPresenters := mapSet s.pointPresenters data.id data }
  | .MINOR =>
      match clearBoard false s with
      | .error e => .error e
      | .ok s1 => .ok (renderBoard env s1)
  | .MAJOR =>
      match clearBoard true s with
      | .error e => .error e
      | .ok s1 => .ok (renderBoard env s1)
  | .INIT =>
      let s1 := { s with isLoading := false, loadingRendered := false }
      if s1.models.offersByType.isEmpty || s1.models.destinations.isEmpty then
        .ok (renderError s1)
      else
        let s2 := { s1 with newPointPresenterCreated := true }
        .ok (renderBoard env s2)

/-- handleSortTypeChange (lines 158-166): returns at once when the selected
sort type is already current; otherwise stores the new sort type, clears
the board (the source passes the sort type where clearBoard destructures an
options object, so resetSortType falls back to its default false) and
re-renders. -/
def handleSortTypeChange (env : Env) (sortType : SortType) (s : BoardState) :
    Except BoardState BoardState :=
  if s.currentSortType == sortType then .ok s
  else
    let s1 := { s with currentSortType := sortType }
    match clearBoard false s1 with
    | .error e => .error e
    | .ok s2 => .ok (renderBoard env s2)

/-- A call to a mutating model method, with its arguments. -/
inductive ModelCall
  | updatePoint (updateType : UpdateType) (update : Point)
  | addPoint (updateType : UpdateType) (update : Point)
  | deletePoint (updateType : UpdateType) (update : Point)
  | setFilter (updateType : UpdateType) (f : FilterType)
deriving Repr, DecidableEq

/-- handleViewAction (lines 78-90): dispatches each user action to the
corresponding points-model method, passing the update type and payload
through unchanged; the result is the list of model calls performed. -/
def handleViewAction (actionType : UserAction) (updateType : UpdateType)
    (update : Point) : List ModelCall :=
  match actionType with
  | .UPDATE_POINT => [.updatePoint updateType update]
  | .ADD_POINT => [.addPoint updateType update]
  | .DELETE_POINT => [.deletePoint updateType update]

/-- The comparator that utils.js associates to each sort type, under the
names the specification uses (sortDay, sortPrice, sortTime). -/
def comparatorFor (env : Env) : SortType → Point → Point → Int
  | .DAY => env.sortDay
  | .PRICE => env.sortPrice
  | .TIME => env.sortTime

/-- Stated from the spec's words: the visible view array is the point
collection with the current filter predicate applied and then sorted with
the comparator of the current sort type. -/
def specVisiblePoints (env : Env) (points : List Point) (ft : FilterType)
    (st : SortType) : List Point :=
  jsSort (comparatorFor env st) (points.filter (env.filterPred ft))

/-! ## Helper lemmas about the JavaScript Map embedding -/

theorem find?_map_update (k : Nat) (v : Point) :
    ∀ (m : List (Nat × Point)), m.any (fun e => e.1 == k) = true →
      (m.map (fun e => if e.1 == k then (k, v) else e)).find? (fun e => e.1 == k) =
        some (k, v)
  | [], h => by simp at h
  | e :: m', h => by
      rw [List.map_cons]
      by_cases he : (e.1 == k) = true
      · rw [if_pos he]
        exact List.find?_cons_of_pos _ (by simp)
      · rw [if_neg he, List.find?_cons_of_neg (p := fun e => e.1 == k) (a := e) _ he]
        have h' : m'.any (fun e => e.1 == k) = true := by
          rcases List.any_eq_true.mp h with ⟨x, hx, hpx⟩
          rcases List.mem_cons.mp hx with rfl | hx'
          · exact absurd hpx he
          · exact List.any_eq_true.mpr ⟨x, hx', hpx⟩
        exact find?_map_update k v m' h'

theorem find?_map_update_ne (k : Nat) (v : Point) (q : Nat) (hqk : q ≠ k) :
    ∀ (m : List (Nat × Point)),
      (m.map (fun e => if e.1 == k then (k, v) else e)).find? (fun e => e.1 == q) =
        m.find? (fun e => e.1 == q)
  | [] => rfl
  | e :: m' => by
      rw [List.map_cons]
      by_cases he : (e.1 == k) = true
      · have he' : e.1 = k := by simpa using he
        have h1 : ¬(((k, v) : Nat × Point).1 == q) = true := by
          simp
          exact fun h => hqk h.symm
        have h2 : ¬(e.1 == q) = true := by
          simp [he']
          exact fun h => hqk h.symm
        rw [if_pos he,
          List.find?_cons_of_neg (p := fun e => e.1 == q) (a := ((k, v) : Nat × Point)) _ h1,
          List.find?_cons_of_neg (p := fun e => e.1 == q) (a := e) _ h2]
        exact find?_map_update_ne k v q hqk m'
      · rw [if_neg he]
        by_cases heq : (e.1 == q) = true
        · rw [List.find?_cons_of_pos (p := fun e => e.1 == q) (a := e) _ heq,
            List.find?_cons_of_pos (p := fun e => e.1 == q) (a := e) _ heq]
        · rw [List.find?_cons_of_neg (p := fun e => e.1 == q) (a := e) _ heq,
            List.find?_cons_of_neg (p := fun e => e.1 == q) (a := e) _ heq]
          exact find?_map_update_ne k v q hqk m'

/-- Setting a key makes it retrievable with the set value. -/
theorem mapGet_mapSet_self (m : List (Nat × Point)) (k : Nat) (v : Point) :
    mapGet (mapSet m k v) k = some v := by
  unfold mapGet mapSet
  by_cases hany : (m.any fun e => e.1 == k) = true
  · rw [if_pos hany, find?_map_update k v m hany]
    rfl
  · rw [if_neg hany]
    have hanyf : (m.any fun e => e.1 == k) = false := by
      revert hany
      cases m.any fun e => e.1 == k <;> simp
    have hnone : m.find? (fun e => e.1 == k) = none :=
      List.find?_eq_none.mpr (fun x hx => List.any_eq_false.mp hanyf x hx)
    rw [List.find?_append, hnone]
    simp

/-- Setting a key leaves every other key's lookup unchanged. -/
theorem mapGet_mapSet_ne (m : List (Nat × Point)) (k q : Nat) (v : Point)
    (hqk : q ≠ k) : mapGet (mapSet m k v) q = mapGet m q := by
  unfold mapGet mapSet
  by_cases hany : (m.any fun e => e.1 == k) = true
  · rw [if_pos hany, find?_map_update_ne k v q hqk m]
  · rw [if_neg hany, List.find?_append]
    have h1 : List.find? (fun e => e.1 == q) [(k, v)] = none := by
      simp
      exact fun h => hqk h.symm
    rw [h1]
    simp

/-- A successful lookup means some entry carries the key. -/
theorem any_of_mapGet_some {m : List (Nat × Point)} {k : Nat} {q : Point}
    (h : mapGet m k = some q) : m.any (fun e => e.1 == k) = true := by
  unfold mapGet at h
  cases hf : m.find? (fun e => e.1 == k) with
  | none => rw [hf] at h; simp at h
  | some e =>
      have hp := List.find?_some hf
      have hmem := List.mem_of_find?_eq_some hf
      exact List.any_eq_true.mpr ⟨e, hmem, hp⟩

/-- Setting a key that is present keeps the key sequence (insertion order)
unchanged. -/
theorem mapSet_keys_of_present (m : List (Nat × Point)) (k : Nat) (v : Point)
    (h : m.any (fun e => e.1 == k) = true) :
    (mapSet m k v).map Prod.fst = m.map Prod.fst := by
  unfold mapSet
  rw [if_pos h, List.map_map]
  apply List.map_congr_left
  intro e _
  by_cases he : e.1 == k
  · have he' : e.1 = k := by simpa using he
    simp [Function.comp, he, he']
  · have hbe : (e.1 == k) = false := by simpa using he
    simp [Function.comp, hbe]

/-! ## Characterisations of the presenter's operations -/

/-- The points getter, characterised: it stores the filter model's filter
into filterType and returns the spec-side filtered-then-sorted array. -/
theorem getPoints_spec (env : Env) (s : BoardState) :
    getPoints env s =
      ({ s with filterType := s.models.filter },
        specVisiblePoints env s.models.points s.models.filter s.currentSortType) := by
  obtain ⟨m, pp, np, cst, ft, il, lr, er, nr, sr, el⟩ := s
  cases cst <;> rfl

theorem foldl_renderPoint_spec (pts : List Point) :
    ∀ (s : BoardState),
      pts.foldl (fun st p => renderPoint p st) s =
        { s with pointPresenters :=
            pts.foldl (fun m p => mapSet m p.id p) s.pointPresenters } := by
  induction pts with
  | nil =>
      intro s
      obtain ⟨m, pp, np, cst, ft, il, lr, er, nr, sr, el⟩ := s
      rfl
  | cons p rest ih =>
      intro s
      obtain ⟨m, pp, np, cst, ft, il, lr, er, nr, sr, el⟩ := s
      rw [List.foldl_cons, List.foldl_cons, ih]
      rfl

/-- renderPointList, characterised: it renders the event list container and
folds each point into the presenter map under its id. -/
theorem renderPointList_spec (pts : List Point) (s : BoardState) :
    renderPointList pts s =
      { s with eventListRendered := true
               pointPresenters :=
                 pts.foldl (fun m p => mapSet m p.id p) s.pointPresenters } := by
  obtain ⟨m, pp, np, cst, ft, il, lr, er, nr, sr, el⟩ := s
  unfold renderPointList
  rw [foldl_renderPoint_spec]

/-- renderBoard, characterised: exactly one display state is rendered —
loading wins, then the empty check, then the sort control and the point
list built from the visible points. -/
theorem renderBoard_spec (env : Env) (s : BoardState) :
    renderBoard env s =
      if s.isLoading then
        { s with filterType := s.models.filter
                 loadingRendered := true }
      else if specVisiblePoints env s.models.points s.models.filter s.currentSortType = [] then
        { s with filterType := s.models.filter
                 noPointsRendered := true }
      else
        { s with filterType := s.models.filter
                 sortRendered := true
                 eventListRendered := true
                 pointPresenters :=
                   (specVisiblePoints env s.models.points s.models.filter
                       s.currentSortType).foldl
                     (fun m p => mapSet m p.id p) s.pointPresenters } := by
  obtain ⟨m, pp, np, cst, ft, il, lr, er, nr, sr, el⟩ := s
  unfold renderBoard
  rw [getPoints_spec]
  cases il with
  | true => rfl
  | false =>
      by_cases he :
          specVisiblePoints env m.points m.filter cst = []
      · rw [if_neg (by simp), if_pos he]
        have hlen : ((specVisiblePoints env m.points m.filter cst).length == 0) = true := by
          simp [he]
        simp only [hlen]
        rfl
      · rw [if_neg (by simp), if_neg he]
        have hlen : ((specVisiblePoints env m.points m.filter cst).length == 0) = false := by
          simp [List.length_eq_zero, he]
        simp only [hlen]
        rw [getPoints_spec, renderPointList_spec]
        rfl

/-- Folding points whose ids all avoid k leaves the lookup at k unchanged. -/
theorem mapGet_foldl_of_not_mem (k : Nat) :
    ∀ (pts : List Point) (m : List (Nat × Point)),
      (∀ q ∈ pts, q.id ≠ k) →
      mapGet (pts.foldl (fun acc q => mapSet acc q.id q) m) k = mapGet m k
  | [], _, _ => rfl
  | q :: rest, m, h => by
      rw [List.foldl_cons,
        mapGet_foldl_of_not_mem k rest _ (fun r hr => h r (List.mem_cons_of_mem _ hr))]
      exact mapGet_mapSet_ne m q.id k q (h q (List.mem_cons_self _ _)).symm

/-- After folding a list of points with pairwise distinct ids into the map,
each of them is retrievable under its id. -/
theorem mapGet_foldl_mem :
    ∀ (pts : List Point) (m : List (Nat × Point)) (p : Point), p ∈ pts →
      (pts.map Point.id).Nodup →
      mapGet (pts.foldl (fun acc q => mapSet acc q.id q) m) p.id = some p
  | [], _, p, hp, _ => absurd hp (List.not_mem_nil p)
  | q :: rest, m, p, hp, hnodup => by
      rw [List.map_cons] at hnodup
      have hnd := List.nodup_cons.mp hnodup
      rw [List.foldl_cons]
      rcases List.mem_cons.mp hp with rfl | hp'
      · have hids : ∀ r ∈ rest, r.id ≠ p.id := by
          intro r hr heq
          exact hnd.1 (heq ▸ List.mem_map_of_mem Point.id hr)
        rw [mapGet_foldl_of_not_mem p.id rest _ hids]
        exact mapGet_mapSet_self m p.id p
      · exact mapGet_foldl_mem rest (mapSet m q.id q) p hp' hnd.2

/-- renderBoard never changes the current sort type. -/
theorem renderBoard_currentSortType (env : Env) (s : BoardState) :
    (renderBoard env s).currentSortType = s.currentSortType := by
  rw [renderBoard_spec]
  split
  · rfl
  · split <;> rfl

/-! ## Concrete data, used to evaluate the theorems on closed inputs -/

/-- A concrete environment: the everything filter keeps all points; the
comparators order by start date, by descending price and by descending
duration. -/
def env0 : Env :=
  { filterPred := fun _ _ => true
    sortDay := fun a b => a.dateFrom - b.dateFrom
    sortPrice := fun a b => b.basePrice - a.basePrice
    sortTime := fun a b => (b.dateTo - b.dateFrom) - (a.dateTo - a.dateFrom) }

def point0 : Point :=
  { id := 1, dateFrom := 0, dateTo := 10, basePrice := 100, ptype := "taxi",
    destination := 1, offers := [] }

def point1 : Point :=
  { id := 2, dateFrom := 5, dateTo := 7, basePrice := 200, ptype := "flight",
    destination := 2, offers := [1] }

def models0 : Models :=
  { points := [point0, point1], filter := .EVERYTHING,
    offersByType := [1], destinations := [1, 2] }

def regs0 : ObserverRegistry :=
  { pointsObservers := [], filterObservers := [], offerObservers := [],
    destinationObservers := [] }

/-- A loaded post-INIT state: the new-point presenter exists, loading is
over, and both points have registered presenters. -/
def stateLoaded : BoardState :=
  { initState models0 with
      isLoading := false
      newPointPresenterCreated := true
      pointPresenters := [(1, point0), (2, point1)] }

/-! ## The claims -/

/-- C3: for every state of the points and filter models, the points getter
returns the points collection with the current filter predicate applied
and, the current sort type being DAY, PRICE or TIME, sorted with the
corresponding comparator (sortDay, sortPrice, sortTime) — the
filtered-then-sorted view array, recomputed from the models on every call —
and it records the filter used into filterType. -/
theorem points_getter_filtered_sorted (env : Env) (s : BoardState) :
    (getPoints env s).2 =
      specVisiblePoints env s.models.points s.models.filter s.currentSortType ∧
    (getPoints env s).1 = { s with filterType := s.models.filter } := by
  rw [getPoints_spec]
  exact ⟨rfl, rfl⟩

/-- C6: handleViewAction dispatches UPDATE_POINT to exactly
pointsModel.updatePoint, ADD_POINT to exactly pointsModel.addPoint, and
DELETE_POINT to exactly pointsModel.deletePoint, passing the update type
and payload through unchanged, and performs no other model call. -/
theorem view_action_dispatch (u : UpdateType) (p : Point) :
    handleViewAction .UPDATE_POINT u p = [.updatePoint u p] ∧
    handleViewAction .ADD_POINT u p = [.addPoint u p] ∧
    handleViewAction .DELETE_POINT u p = [.deletePoint u p] :=
  ⟨rfl, rfl, rfl⟩

/-- C7: constructing a BoardPresenter registers its model-event handler as
an observer on all four models — points, filter, offers and destinations —
so every subsequent notification from any of them reaches the presenter. -/
theorem construct_registers_handler (m : Models) (regs : ObserverRegistry) (h : Nat) :
    h ∈ (constructBoardPresenter m regs h).2.pointsObservers ∧
    h ∈ (constructBoardPresenter m regs h).2.filterObservers ∧
    h ∈ (constructBoardPresenter m regs h).2.offerObservers ∧
    h ∈ (constructBoardPresenter m regs h).2.destinationObservers := by
  refine ⟨?_, ?_, ?_, ?_⟩ <;> simp [constructBoardPresenter, addObserver]

/-- C2: on an INIT model event, when the offer data or the destination
data failed to load (is empty) the presenter removes the loading view and
renders the static error view, does not create the new-point presenter and
does not render the board; otherwise it creates the new-point presenter
and renders the board. -/
theorem init_event_error_or_board (env : Env) (d : Point) (s : BoardState) :
    (s.models.offersByType = [] ∨ s.models.destinations = [] →
      ∃ s', handleModelEvent env .INIT d s = .ok s' ∧
        s'.isLoading = false ∧
        s'.loadingRendered = false ∧
        s'.errorRendered = true ∧
        s'.newPointPresenterCreated = s.newPointPresenterCreated ∧
        s'.pointPresenters = s.pointPresenters ∧
        s'.sortRendered = s.sortRendered ∧
        s'.noPointsRendered = s.noPointsRendered ∧
        s'.eventListRendered = s.eventListRendered) ∧
    (s.models.offersByType ≠ [] → s.models.destinations ≠ [] →
      handleModelEvent env .INIT d s =
        .ok (renderBoard env
          { s with isLoading := false
                   loadingRendered := false
                   newPointPresenterCreated := true })) := by
  constructor
  · intro h
    have hc : (s.models.offersByType.isEmpty || s.models.destinations.isEmpty) = true := by
      rcases h with h | h <;> simp [h]
    refine ⟨renderError { s with isLoading := false, loadingRendered := false },
      ?_, rfl, rfl, rfl, rfl, rfl, rfl, rfl, rfl⟩
    simp [handleModelEvent, hc]
  · intro h1 h2
    have hc : (s.models.offersByType.isEmpty || s.models.destinations.isEmpty) = false := by
      simp [List.isEmpty_eq_false, h1, h2]
    simp [handleModelEvent, hc]

/-- C4: every invocation of renderBoard renders exactly one display state:
the loading view while loading (precedence over the empty check), the
no-points view when the filtered+sorted list is empty, and otherwise the
sort control together with one point presenter per visible point. -/
theorem renderBoard_one_display_state (env : Env) (s : BoardState) :
    (s.isLoading = true →
      renderBoard env s =
        { s with filterType := s.models.filter, loadingRendered := true }) ∧
    (s.isLoading = false →
      specVisiblePoints env s.models.points s.models.filter s.currentSortType = [] →
      renderBoard env s =
        { s with filterType := s.models.filter, noPointsRendered := true }) ∧
    (s.isLoading = false →
      specVisiblePoints env s.models.points s.models.filter s.currentSortType ≠ [] →
      (renderBoard env s).sortRendered = true ∧
      (renderBoard env s).eventListRendered = true ∧
      (renderBoard env s).loadingRendered = s.loadingRendered ∧
      (renderBoard env s).noPointsRendered = s.noPointsRendered ∧
      (renderBoard env s).errorRendered = s.errorRendered ∧
      (((specVisiblePoints env s.models.points s.models.filter
            s.currentSortType).map Point.id).Nodup →
        ∀ p ∈ specVisiblePoints env s.models.points s.models.filter s.currentSortType,
          mapGet (renderBoard env s).pointPresenters p.id = some p)) := by
  refine ⟨?_, ?_, ?_⟩
  · intro hl
    rw [renderBoard_spec, if_pos hl]
  · intro hl he
    rw [renderBoard_spec, if_neg (by simp [hl]), if_pos he]
  · intro hl he
    rw [renderBoard_spec, if_neg (by simp [hl]), if_neg he]
    refine ⟨rfl, rfl, rfl, rfl, rfl, ?_⟩
    intro hnodup p hp
    exact mapGet_foldl_mem _ _ p hp hnodup

/-- C5 (amended: provided the new-point presenter has been created, that
is, after a successful INIT): a MINOR event destroys all child point
presenters, empties the presenter map and re-renders the board from
scratch with the sort type unchanged, and a MAJOR event does the same with
the sort type reset to DAY. -/
theorem minor_major_clear_and_rerender (env : Env) (d : Point) (s : BoardState)
    (hn : s.newPointPresenterCreated = true) :
    handleModelEvent env .MINOR d s =
      .ok (renderBoard env
        { s with pointPresenters := []
                 sortRendered := false
                 noPointsRendered := false
                 loadingRendered := false }) ∧
    handleModelEvent env .MAJOR d s =
      .ok (renderBoard env
        { s with pointPresenters := []
                 sortRendered := false
                 noPointsRendered := false
                 loadingRendered := false
                 currentSortType := SortType.DAY }) := by
  constructor <;> simp [handleModelEvent, clearBoard, hn]

/-- C5 witness: evaluated on the loaded two-point state. -/
theorem minor_major_clear_and_rerender_witness :
    handleModelEvent env0 .MINOR point0 stateLoaded =
      .ok (renderBoard env0
        { stateLoaded with pointPresenters := []
                           sortRendered := false
                           noPointsRendered := false
                           loadingRendered := false }) :=
  (minor_major_clear_and_rerender env0 point0 stateLoaded rfl).1

/-- C5 counterexample: with presenters registered but the new-point
presenter never created (INIT not yet delivered), a MINOR event does not
re-render the board: the handler throws while clearing (the error state
shows the map already emptied but nothing re-rendered). -/
theorem minor_without_new_point_presenter_throws :
    handleModelEvent env0 .MINOR point0
        { initState models0 with
            pointPresenters := [(1, point0)]
            isLoading := false } =
      .error { initState models0 with isLoading := false } := rfl

/-- C9: a MINOR or MAJOR event delivered in the state right after
construction — before any INIT, so the new-point presenter is still null —
reaches clearBoard's dereference of that null presenter: the handler's
error branch is reachable, no guard preventing it. -/
theorem clear_before_init_throws :
    handleModelEvent env0 .MINOR point0 (constructBoardPresenter models0 regs0 7).1 =
      .error (initState models0) ∧
    handleModelEvent env0 .MAJOR point0 (constructBoardPresenter models0 regs0 7).1 =
      .error (initState models0) :=
  ⟨rfl, rfl⟩

/-- C8: a PATCH event whose point id has a registered presenter
re-initialises only that presenter with the new data: the handler succeeds
changing nothing but the presenter map, the entry under the id now holds
the new point, every other lookup is unchanged, and the key sequence is
unchanged (the board is not cleared, the sort type and all rendered
components untouched). -/
theorem patch_reinitialises_only_target (env : Env) (d : Point) (s : BoardState)
    (q : Point) (hq : mapGet s.pointPresenters d.id = some q) :
    handleModelEvent env .PATCH d s =
      .ok { s with pointPresenters := mapSet s.pointPresenters d.id d } ∧
    mapGet (mapSet s.pointPresenters d.id d) d.id = some d ∧
    (∀ k, k ≠ d.id →
      mapGet (mapSet s.pointPresenters d.id d) k = mapGet s.pointPresenters k) ∧
    (mapSet s.pointPresenters d.id d).map Prod.fst =
      s.pointPresenters.map Prod.fst := by
  refine ⟨?_, mapGet_mapSet_self _ _ _, fun k hk => mapGet_mapSet_ne _ _ _ _ hk,
    mapSet_keys_of_present _ _ _ (any_of_mapGet_some hq)⟩
  simp [handleModelEvent, hq]

/-- C8 witness: patching point id 2 with new data in the loaded state. -/
theorem patch_reinitialises_only_target_witness :
    handleModelEvent env0 .PATCH point1 stateLoaded =
      .ok { stateLoaded with
              pointPresenters := mapSet stateLoaded.pointPresenters point1.id point1 } :=
  (patch_reinitialises_only_target env0 point1 stateLoaded point1 rfl).1

/-- C10: invoking the sort-type change handler with the sort type that is
already current is a no-op — the handler returns before clearing or
re-rendering, leaving the whole state unchanged — and consequently
applying the same sort selection twice equals applying it once. -/
theorem sort_change_same_type_noop (env : Env) (st : SortType) (s : BoardState) :
    (st = s.currentSortType → handleSortTypeChange env st s = .ok s) ∧
    (handleSortTypeChange env st s).bind (handleSortTypeChange env st) =
      handleSortTypeChange env st s := by
  constructor
  · intro h
    subst h
    simp [handleSortTypeChange]
  · by_cases hst : (s.currentSortType == st) = true
    · have hok : handleSortTypeChange env st s = .ok s := by
        simp [handleSortTypeChange, hst]
      rw [hok]
      show handleSortTypeChange env st s = Except.ok s
      exact hok
    · have hstf : (s.currentSortType == st) = false := by
        revert hst
        cases s.currentSortType == st <;> simp
      by_cases hnp : s.newPointPresenterCreated = true
      · have hcb : clearBoard false { s with currentSortType := st } =
            .ok { s with currentSortType := st
                         pointPresenters := []
                         sortRendered := false
                         noPointsRendered := false
                         loadingRendered := false } := by
          simp [clearBoard, hnp]
        have hone : handleSortTypeChange env st s =
            .ok (renderBoard env
              { s with currentSortType := st
                       pointPresenters := []
                       sortRendered := false
                       noPointsRendered := false
                       loadingRendered := false }) := by
          simp [handleSortTypeChange, hstf, hcb]
        rw [hone]
        show handleSortTypeChange env st _ = _
        have hcur : (renderBoard env
            { s with currentSortType := st
                     pointPresenters := []
                     sortRendered := false
                     noPointsRendered := false
                     loadingRendered := false }).currentSortType = st := by
          rw [renderBoard_currentSortType]
        simp [handleSortTypeChange, hcur]
      · have hnpf : s.newPointPresenterCreated = false := by
          revert hnp
          cases s.newPointPresenterCreated <;> simp
        have herr : handleSortTypeChange env st s =
            .error { s with currentSortType := st
                            pointPresenters := []
                            sortRendered := false
                            noPointsRendered := false
                            loadingRendered := false } := by
          simp [handleSortTypeChange, hstf, clearBoard, hnpf]
        rw [herr]
        rfl

/-- C10 witness: re-selecting DAY in the loaded state changes nothing. -/
theorem sort_change_same_type_noop_witness :
    handleSortTypeChange env0 .DAY stateLoaded = .ok stateLoaded :=
  (sort_change_same_type_noop env0 .DAY stateLoaded).1 rfl

/-- C2 witness: INIT on the freshly constructed state over loaded data
creates the new-point presenter and renders the board. -/
theorem init_event_error_or_board_witness :
    handleModelEvent env0 .INIT point0 (initState models0) =
      .ok (renderBoard env0
        { initState models0 with
            isLoading := false
            loadingRendered := false
            newPointPresenterCreated := true }) :=
  (init_event_error_or_board env0 point0 (initState models0)).2
    (by decide) (by decide)

/-- C4 witness: in the loaded state the list branch registers a presenter
for the visible point with id 1. -/
theorem renderBoard_one_display_state_witness :
    mapGet (renderBoard env0 stateLoaded).pointPresenters point0.id = some point0 :=
  ((renderBoard_one_display_state env0 stateLoaded).2.2 rfl
      (by decide)).2.2.2.2.2 (by decide) point0 (by decide)

/-! ## C1: the disabled attribute of a rendered filter item -/

/-- No pair ('b', 'l') arises from a type-name segment whose characters
avoid b, whatever follows. -/
theorem no_bl_type_append (T rest : List Char) (hT : 'b' ∉ T)
    (hrest : ('b', 'l') ∉ adjPairs rest) : ('b', 'l') ∉ adjPairs (T ++ rest) :=
  not_mem_adjPairs_append
    (fun h => hT (fst_mem_of_mem_adjPairs h))
    hrest
    (fun h => hT (List.mem_of_getLast?_eq_some h.1))

/-- No pair ('b', 'l') arises from a literal segment free of that pair and
not ending in b, whatever follows. -/
theorem no_bl_lit_append (L rest : List Char) (hL : ('b', 'l') ∉ adjPairs L)
    (hlast : L.getLast? ≠ some 'b')
    (hrest : ('b', 'l') ∉ adjPairs rest) : ('b', 'l') ∉ adjPairs (L ++ rest) :=
  not_mem_adjPairs_append hL hrest (fun h => hlast h.1)

set_option maxHeartbeats 2000000 in
/-- C1: the radio input generated by createFilterItemTemplate carries the
disabled attribute iff the filter's count equals 0: the word "disabled"
occurs in the rendered item exactly when count = 0, for every filter type
name not containing the letter b (none of the application's filter names
does; the selected filter name is arbitrary since only its comparison with
the item's type reaches the output). -/
theorem filter_item_disabled_iff_count_zero (f : FilterItem) (cur : String)
    (hb : 'b' ∉ f.type.data) :
    "disabled".data <:+: (createFilterItemTemplate f cur).data ↔ f.count = 0 := by
  constructor
  · intro hinf
    by_contra hcz
    have hD : isDisabledAttr f.count = "" := by
      unfold isDisabledAttr
      rw [if_neg (by simpa using hcz)]
    have hbl : ('b', 'l') ∈ adjPairs (createFilterItemTemplate f cur).data :=
      mem_adjPairs_of_infix hinf (by decide)
    have hCpair : ('b', 'l') ∉ adjPairs (isCheckedAttr f.type cur).data := by
      unfold isCheckedAttr
      split <;> decide
    have hClast : (isCheckedAttr f.type cur).data.getLast? ≠ some 'b' := by
      unfold isCheckedAttr
      split <;> decide
    simp only [createFilterItemTemplate, hD, String.data_append,
      List.append_assoc] at hbl
    exact absurd hbl
      (no_bl_lit_append _ _ (by decide) (by decide)
        (no_bl_type_append _ _ hb
          (no_bl_lit_append _ _ (by decide) (by decide)
            (no_bl_type_append _ _ hb
              (no_bl_lit_append _ _ (by decide) (by decide)
                (no_bl_lit_append _ _ hCpair hClast
                  (no_bl_lit_append _ _ (by decide) (by decide)
                    (no_bl_lit_append _ _ (by decide) (by decide)
                      (no_bl_lit_append _ _ (by decide) (by decide)
                        (no_bl_type_append _ _ hb
                          (no_bl_lit_append _ _ (by decide) (by decide)
                            (no_bl_type_append _ _ hb (by decide)))))))))))))
  · intro hc
    have hD : isDisabledAttr f.count = "disabled" := by
      unfold isDisabledAttr
      rw [if_pos (by simp [hc])]
    refine ⟨("<div class=\"trip-filters__filter\">\n      <input id=\"filter-" ++ f.type ++
        "\" class=\"trip-filters__filter-input  visually-hidden\" type=\"radio\" name=\"trip-filter\" value=\"" ++
        f.type ++ "\" " ++ isCheckedAttr f.type cur ++ " ").data,
      (">\n      <label class=\"trip-filters__filter-label\" for=\"filter-" ++ f.type ++
        "\">" ++ f.type ++ "</label>\n    </div>").data, ?_⟩
    simp only [createFilterItemTemplate, hD, String.data_append, List.append_assoc]

/-- C1 witness: the everything filter with zero matching points renders
its radio input with the disabled attribute. -/
theorem filter_item_disabled_iff_count_zero_witness :
    "disabled".data <:+:
      (createFilterItemTemplate { type := "everything", count := 0 } "everything").data :=
  (filter_item_disabled_iff_count_zero { type := "everything", count := 0 }
    "everything" (by decide)).mpr rfl
